import Mathlib

/-!
Shallow embedding of `telegnotion_bot.py`, a Telegram→Notion relay bot.

Python strings are modelled as Lean `String` (a list of Unicode code
points, matching Python's `str` indexing/slicing semantics).  Ambient
effects are made explicit: the current clock is a `DateTime` parameter,
the outcome of the remote Notion create call is a `CreateResult`
parameter, and Telegram replies / Notion writes performed by a handler
are collected into a trace of `BotAction`s.
-/

/-- Embedding of the Python slice `s[:n]`: the first `n` code points of `s`. -/
def pySlice (s : String) (n : Nat) : String :=
  String.mk (s.data.take n)

/-- Embedding of Python `str.capitalize()`: first character uppercased,
the rest lowercased. -/
def pyCapitalize (s : String) : String :=
  match s.data with
  | [] => ""
  | c :: cs => String.mk (c.toUpper :: cs.map Char.toLower)

/-- Embedding of the Python expression `x or d` where `x : Optional[str]`:
both `None` and the empty string are falsy and fall through to `d`. -/
def pyOrElse (x : Option String) (d : String) : String :=
  match x with
  | none => d
  | some s => if s = "" then d else s

/-- Embedding of Python truthiness of an `Optional[str]` (as used by
`all([...])` over `os.getenv` results): `None` and `""` are falsy. -/
def pyTruthy (x : Option String) : Bool :=
  match x with
  | none => false
  | some s => !(s = "")

/-- Embedding of Python `f"{x}"` for `x : Optional[str]`: `None` renders
as the literal string `"None"`. -/
def pyFormat (x : Option String) : String :=
  match x with
  | none => "None"
  | some s => s

/-- Embedding of the Python index `l[-1]`: `none` stands for the
`IndexError` raised on an empty list. -/
def pyLastIndex {α : Type} (l : List α) : Option α :=
  l.getLast?

/-- A local date-time, as produced by `datetime.datetime.now()`.
CPython guarantees `1 ≤ year ≤ 9999`, `1 ≤ month ≤ 12`, `1 ≤ day ≤ 31`,
`hour ≤ 23`, `minute ≤ 59`, `second ≤ 59`. -/
structure DateTime where
  year : Nat
  month : Nat
  day : Nat
  hour : Nat
  minute : Nat
  second : Nat
deriving DecidableEq

/-- The decimal digit character of `n % 10`. -/
def digitChar (n : Nat) : Char :=
  Char.ofNat (48 + n % 10)

/-- Modelled from the Python standard library (external to this repo):
`dt.strftime("%Y-%m-%d_%H-%M-%S")`, rendering each field zero-padded in
decimal.  Faithful to CPython for the field ranges `datetime` guarantees
(and, for `%Y`, for years 1000–9999, where no platform pads). -/
def strftimeTimestamp (dt : DateTime) : String :=
  String.mk [digitChar (dt.year / 1000), digitChar (dt.year / 100),
    digitChar (dt.year / 10), digitChar dt.year,
    '-', digitChar (dt.month / 10), digitChar dt.month,
    '-', digitChar (dt.day / 10), digitChar dt.day,
    '_', digitChar (dt.hour / 10), digitChar dt.hour,
    '-', digitChar (dt.minute / 10), digitChar dt.minute,
    '-', digitChar (dt.second / 10), digitChar dt.second]

/-- A Notion page-properties payload, as built by `get_text_properties`
and `get_file_properties`.  Field `name` is the `"Name"` title content,
`typeSelect` the `"Type"` select name, `contenu` the `"Contenu"`
rich-text content (absent = the key is not in the dict), `fichierURL`
the `"Fichier URL"` url (absent = the key is not in the dict).  No other
key is ever put in the dict by either builder. -/
structure Payload where
  name : String
  typeSelect : String
  contenu : Option String
  fichierURL : Option String
deriving DecidableEq

/-- Embedding of `get_text_properties(text)` (telegnotion_bot.py:55-74):
title is `text[:30]`, `Type` is `"Texte"`, `Contenu` is the full text;
no `Fichier URL` key. -/
def get_text_properties (text : String) : Payload :=
  let title := pySlice text 30
  { name := title
    typeSelect := "Texte"
    contenu := some text
    fichierURL := none }

/-- A resolved Telegram file object: `file_path` is the temporary
download URL provided by Telegram. -/
structure TelegramFile where
  file_path : String
deriving DecidableEq

/-- Embedding of `get_file_properties(file, file_type, filename=None)`
(telegnotion_bot.py:76-91), with the ambient clock made explicit:
title is `f"{file_type.capitalize()}: {filename or now.strftime(...)}"`
cut to 100 characters, `Type` is `file_type.capitalize()`,
`Fichier URL` is `file.file_path`; no `Contenu` key. -/
def get_file_properties (file : TelegramFile) (file_type : String)
    (filename : Option String) (now : DateTime) : Payload :=
  let file_url := file.file_path
  let page_title :=
    pyCapitalize file_type ++ ": " ++ pyOrElse filename (strftimeTimestamp now)
  { name := pySlice page_title 100
    typeSelect := pyCapitalize file_type
    contenu := none
    fichierURL := some file_url }

/-- Outcome of the single `notion.pages.create` call inside
`save_to_notion`: success, a structured `APIResponseError` (with the
code and body the client surfaces), or any other exception. -/
inductive CreateResult where
  | success
  | apiResponseError (code : String) (body : String)
  | otherException (msg : String)
deriving DecidableEq

/-- Embedding of `save_to_notion(page_properties)`
(telegnotion_bot.py:39-53): the body issues one create call whose
outcome is `r`, returns `True` on success and catches both
`APIResponseError` and any other exception, returning `False`.  The
function is total: no outcome escapes as an exception. -/
def save_to_notion (r : CreateResult) : Bool :=
  match r with
  | .success => true
  | .apiResponseError _ _ => false
  | .otherException _ => false

/-- Embedding of the module-level configuration check
(telegnotion_bot.py:12-18): the three `os.getenv` results (absent
variable = `none`) must all be truthy, else a `ValueError` is raised
before any handler or event loop is set up. -/
def startupCheck (telegramToken notionToken notionDbId : Option String) :
    Except String Unit :=
  if pyTruthy telegramToken && pyTruthy notionToken && pyTruthy notionDbId then
    Except.ok ()
  else
    Except.error "Erreur: Assurez-vous que TELEGRAM_BOT_TOKEN, NOTION_API_KEY, et NOTION_DATABASE_ID sont définis dans le fichier .env"

/-- One observable action of a handler: a Telegram `reply_text` or the
Notion create call performed through `save_to_notion`. -/
inductive BotAction where
  | reply (text : String)
  | notionCreate (properties : Payload)
deriving DecidableEq

/-- Embedding of `handle_text(update, context)`
(telegnotion_bot.py:101-115) as the trace of its observable actions:
acknowledge, create the text record (remote outcome `r`), then reply
with the specific success text or the generic failure text. -/
def handle_text (message_text : String) (r : CreateResult) : List BotAction :=
  let properties := get_text_properties message_text
  let success := save_to_notion r
  [.reply "Traitement du texte...", .notionCreate properties] ++
    if success then [.reply "Texte sauvegardé dans Notion !"]
    else [.reply "Oups ! Une erreur s'est produite lors de la sauvegarde dans Notion."]

/-- One entry of `update.message.photo`: a photo-size variant. -/
structure PhotoSize where
  file_id : String
  width : Nat
  height : Nat
deriving DecidableEq

/-- Pixel count of a photo-size variant, the resolution the variants of
a Telegram photo message are ordered by. -/
def resolution (p : PhotoSize) : Nat :=
  p.width * p.height

/-- Embedding of `handle_photo(update, context)`
(telegnotion_bot.py:117-133): acknowledge, resolve
`update.message.photo[-1].file_id` through `context.bot.get_file`
(modelled by `resolve`), build the image record, create it (remote
outcome `r`), reply with the outcome.  `none` stands for the
uncaught `IndexError` on an empty variant list. -/
def handle_photo (photos : List PhotoSize) (resolve : String → TelegramFile)
    (r : CreateResult) (now : DateTime) : Option (List BotAction) :=
  match pyLastIndex photos with
  | none => none
  | some photo =>
    let photo_file := resolve photo.file_id
    let properties := get_file_properties photo_file "Image" none now
    let success := save_to_notion r
    some ([.reply "Traitement de l'image...", .notionCreate properties] ++
      if success then [.reply "Image sauvegardée dans Notion !"]
      else [.reply "Oups ! Une erreur s'est produite lors de la sauvegarde dans Notion."])

/-- `update.message.document`: Telegram marks `file_name` optional. -/
structure TgDocument where
  file_id : String
  file_name : Option String
deriving DecidableEq

/-- Embedding of `handle_document(update, context)`
(telegnotion_bot.py:136-152): acknowledge, resolve `doc.file_id`
(modelled by `resolve`), build the document record with the original
filename, create it (remote outcome `r`), reply with the outcome. -/
def handle_document (doc : TgDocument) (resolve : String → TelegramFile)
    (r : CreateResult) (now : DateTime) : List BotAction :=
  let doc_file := resolve doc.file_id
  let properties := get_file_properties doc_file "Document" doc.file_name now
  let success := save_to_notion r
  [.reply "Traitement du document...", .notionCreate properties] ++
    if success then
      [.reply ("Document '" ++ pyFormat doc.file_name ++ "' sauvegardé dans Notion !")]
    else [.reply "Oups ! Une erreur s'est produite lors de la sauvegarde dans Notion."]

/-- Number of Telegram replies in a handler trace. -/
def replyCount (t : List BotAction) : Nat :=
  (t.filter fun a => match a with | .reply _ => true | _ => false).length

/-- Number of Notion create calls in a handler trace. -/
def createCount (t : List BotAction) : Nat :=
  (t.filter fun a => match a with | .notionCreate _ => true | _ => false).length

/-- The generic user-facing failure reply shared by all three handlers. -/
def genericFailureText : String :=
  "Oups ! Une erreur s'est produite lors de la sauvegarde dans Notion."

/-- Reply discipline of a handler trace: exactly two replies and one
create call, the first action is the acknowledgment reply, and the last
action is the outcome reply selected by `ok`. -/
def replyShape (t : List BotAction) (ack succMsg : String) (ok : Bool) : Prop :=
  replyCount t = 2 ∧ createCount t = 1 ∧
    t.head? = some (.reply ack) ∧
    t.getLast? = some (.reply (if ok then succMsg else genericFailureText))

/-- Does a string have the exact shape `YYYY-MM-DD_HH-MM-SS` (four
digits, dash, two digits, dash, two digits, underscore, two digits,
dash, two digits, dash, two digits)? -/
def matchesTimestampPattern (s : String) : Bool :=
  match s.data with
  | [y1, y2, y3, y4, a, m1, m2, b, d1, d2, c, h1, h2, d, n1, n2, e, s1, s2] =>
    y1.isDigit && y2.isDigit && y3.isDigit && y4.isDigit && a == '-' &&
      m1.isDigit && m2.isDigit && b == '-' && d1.isDigit && d2.isDigit &&
      c == '_' && h1.isDigit && h2.isDigit && d == '-' &&
      n1.isDigit && n2.isDigit && e == '-' && s1.isDigit && s2.isDigit
  | _ => false

/-- A builder invocation as dispatched by the handlers, with the ambient
clock at invocation time passed explicitly to `buildAt`. -/
inductive BuildRequest where
  | textMsg (text : String)
  | fileMsg (file : TelegramFile) (file_type : String) (filename : Option String)

/-- Run one builder invocation at ambient time `now`: text messages go
through `get_text_properties` (whose body never reads the clock), file
messages through `get_file_properties` (whose body reads it when the
filename is falsy). -/
def buildAt (now : DateTime) : BuildRequest → Payload
  | .textMsg text => get_text_properties text
  | .fileMsg file file_type filename => get_file_properties file file_type filename now

/-! ### Helper lemmas -/

theorem digitChar_isDigit (n : Nat) : (digitChar n).isDigit = true := by
  have h : ∀ k, k < 10 → (Char.ofNat (48 + k)).isDigit = true := by decide
  exact h (n % 10) (Nat.mod_lt _ (by norm_num))

theorem strftime_matches_pattern (dt : DateTime) :
    matchesTimestampPattern (strftimeTimestamp dt) = true := by
  show ((digitChar (dt.year / 1000)).isDigit && (digitChar (dt.year / 100)).isDigit &&
    (digitChar (dt.year / 10)).isDigit && (digitChar dt.year).isDigit && ('-' == '-') &&
    (digitChar (dt.month / 10)).isDigit && (digitChar dt.month).isDigit && ('-' == '-') &&
    (digitChar (dt.day / 10)).isDigit && (digitChar dt.day).isDigit && ('_' == '_') &&
    (digitChar (dt.hour / 10)).isDigit && (digitChar dt.hour).isDigit && ('-' == '-') &&
    (digitChar (dt.minute / 10)).isDigit && (digitChar dt.minute).isDigit && ('-' == '-') &&
    (digitChar (dt.second / 10)).isDigit && (digitChar dt.second).isDigit) = true
  simp [digitChar_isDigit]

/-- The timestamp string is never empty. -/
theorem strftime_ne_empty (dt : DateTime) : (strftimeTimestamp dt).data ≠ [] := by
  simp [strftimeTimestamp]

/-- `filename or timestamp` is never the empty string. -/
theorem pyOrElse_timestamp_ne_empty (x : Option String) (dt : DateTime) :
    (pyOrElse x (strftimeTimestamp dt)).data ≠ [] := by
  cases x with
  | none => exact strftime_ne_empty dt
  | some s =>
    by_cases h : s = ""
    · simp only [pyOrElse, h, if_pos rfl]
      exact strftime_ne_empty dt
    · simp only [pyOrElse, if_neg h]
      intro hd
      exact h (String.ext hd)

/-- In a variant list sorted by nondecreasing resolution, the last
element has maximal resolution. -/
theorem getLast?_max_of_sorted :
    ∀ (l : List PhotoSize),
      l.Pairwise (fun a b => resolution a ≤ resolution b) →
      ∀ p, l.getLast? = some p → ∀ q ∈ l, resolution q ≤ resolution p := by
  intro l
  induction l with
  | nil => intro _ p hp; simp at hp
  | cons a t ih =>
    intro hs p hp q hq
    cases t with
    | nil =>
      simp only [List.getLast?_singleton, Option.some.injEq] at hp
      subst hp
      simp only [List.mem_singleton] at hq
      subst hq
      exact le_refl _
    | cons b t2 =>
      rw [List.getLast?_cons_cons] at hp
      have hpair := List.pairwise_cons.mp hs
      have hpmem : p ∈ b :: t2 := by
        have hmem : (b :: t2).getLast (by simp) ∈ b :: t2 := List.getLast_mem _
        rw [List.getLast?_eq_getLast _ (by simp), Option.some.injEq] at hp
        exact hp ▸ hmem
      rcases List.mem_cons.mp hq with h | h
      · subst h; exact hpair.1 p hpmem
      · exact ih hpair.2 p hp q h

/-! ### Claims -/

/-- Claim C1: for every input string `s`, `get_text_properties s` has
`Name` title content equal to the first 30 characters of `s` (plain
truncation), `Contenu` equal to `s` unmodified, and `Type` select
exactly `"Texte"`; the builder is total, so it succeeds on any string. -/
theorem text_record_contract (s : String) :
    (get_text_properties s).name.data = s.data.take 30 ∧
    (get_text_properties s).contenu = some s ∧
    (get_text_properties s).typeSelect = "Texte" :=
  ⟨rfl, rfl, rfl⟩

/-- Claim C2: `save_to_notion` is a total function (no outcome escapes
as an exception), returns `true` exactly when the remote create call
succeeds and `false` on a structured API error or any other exception;
and each handler issues the create call exactly once, so the failing
call is never retried. -/
theorem save_to_notion_result_contract (r : CreateResult) :
    (save_to_notion r = true ↔ r = CreateResult.success) ∧
    (save_to_notion r = false ↔ r ≠ CreateResult.success) ∧
    (∀ text : String, createCount (handle_text text r) = 1) ∧
    (∀ (doc : TgDocument) (resolve : String → TelegramFile) (now : DateTime),
      createCount (handle_document doc resolve r now) = 1) := by
  cases r <;>
    exact ⟨by simp [save_to_notion], by simp [save_to_notion],
      fun _ => rfl, fun _ _ _ => rfl⟩

/-- Claim C4: every payload built by either builder carries `Name` and
`Type` (here: total `String` fields) and exactly one of `Contenu` or
`Fichier URL`: text payloads have `Contenu` and no `Fichier URL`, file
payloads have `Fichier URL` and no `Contenu`; the `Payload` structure
has no further field. -/
theorem payload_exactly_one_content_field (s : String) (file : TelegramFile)
    (file_type : String) (filename : Option String) (now : DateTime) :
    ((get_text_properties s).contenu.isSome = true ∧
      (get_text_properties s).fichierURL = none) ∧
    ((get_file_properties file file_type filename now).fichierURL.isSome = true ∧
      (get_file_properties file file_type filename now).contenu = none) :=
  ⟨⟨rfl, rfl⟩, ⟨rfl, rfl⟩⟩

/-- Claim C7, counterexample: a secret that is present in the
environment but set to the empty string (here `TELEGRAM_BOT_TOKEN=""`)
makes the startup check raise even though all three secrets are
present, so "if all three are present, no startup error is raised" is
false as stated. -/
theorem startup_check_counterexample :
    (some "" : Option String).isSome = true ∧
    (some "notion-token" : Option String).isSome = true ∧
    (some "db-id" : Option String).isSome = true ∧
    startupCheck (some "") (some "notion-token") (some "db-id") ≠
      Except.ok () := by
  refine ⟨rfl, rfl, rfl, ?_⟩
  simp [startupCheck, pyTruthy]

/-- Claim C7 as amended: the startup check passes exactly when all
three secrets are present with non-empty values; an absent (or empty)
secret makes it raise the fatal `ValueError` before any handler or
event loop is set up. -/
theorem startup_check_characterization (t n d : Option String) :
    startupCheck t n d = Except.ok () ↔
      ((∃ a, t = some a ∧ a ≠ "") ∧ (∃ b, n = some b ∧ b ≠ "") ∧
        (∃ c, d = some c ∧ c ≠ "")) := by
  cases t <;> cases n <;> cases d <;>
    simp [startupCheck, pyTruthy, ite_eq_iff]

/-- Claim C10: the text record builder is deterministic — its result
does not depend on the ambient clock (or any other ambient state made
explicit in the embedding), so two invocations on the same string give
identical payloads; by contrast the file record builder invoked without
a filename reads the clock and gives different payloads at different
times. -/
theorem text_builder_deterministic :
    (∀ (s : String) (now1 now2 : DateTime),
      buildAt now1 (BuildRequest.textMsg s) = buildAt now2 (BuildRequest.textMsg s)) ∧
    buildAt ⟨2024, 5, 1, 12, 0, 0⟩ (BuildRequest.fileMsg ⟨"https://u"⟩ "Image" none) ≠
      buildAt ⟨2024, 5, 1, 12, 0, 1⟩ (BuildRequest.fileMsg ⟨"https://u"⟩ "Image" none) :=
  ⟨fun _ _ _ => rfl, by decide⟩

/-- Claim C3: for every kind, download URL and optional filename, the
file record builder yields `Type` equal to the capitalized kind, `Name`
equal to `"{Capitalized kind}: {filename or timestamp}"` truncated to
at most 100 characters, and `Fichier URL` equal to the download URL
unchanged; in particular the document scenario with filename
`"report.pdf"` and URL `"https://example/x"` yields the expected
payload. -/
theorem file_record_contract (file : TelegramFile) (file_type : String)
    (filename : Option String) (now : DateTime) :
    (get_file_properties file file_type filename now).name.data =
      (pyCapitalize file_type ++ ": " ++
        pyOrElse filename (strftimeTimestamp now)).data.take 100 ∧
    (get_file_properties file file_type filename now).name.length ≤ 100 ∧
    (get_file_properties file file_type filename now).typeSelect =
      pyCapitalize file_type ∧
    (get_file_properties file file_type filename now).fichierURL =
      some file.file_path ∧
    get_file_properties ⟨"https://example/x"⟩ "Document" (some "report.pdf") now =
      ⟨"Document: report.pdf", "Document", none, some "https://example/x"⟩ := by
  refine ⟨rfl, ?_, rfl, rfl, rfl⟩
  show (List.take 100 ((pyCapitalize file_type ++ ": " ++
    pyOrElse filename (strftimeTimestamp now)).data)).length ≤ 100
  rw [List.length_take]
  exact min_le_left _ _

/-- Claim C5: when the filename is omitted, the file record's `Name` is
the capitalized kind, the separator, then a timestamp rendered from the
build-time clock that matches the pattern `YYYY-MM-DD_HH-MM-SS`; the
range hypotheses are the ones CPython's `datetime.now()` guarantees
(plus year ≥ 1000, below which `%Y` padding is platform-dependent). -/
theorem file_record_timestamp_fallback (file : TelegramFile)
    (file_type : String) (now : DateTime)
    (hk : file_type = "Image" ∨ file_type = "Document")
    (hy1 : 1000 ≤ now.year) (hy2 : now.year ≤ 9999) (hm : now.month ≤ 12)
    (hd : now.day ≤ 31) (hh : now.hour ≤ 23) (hmin : now.minute ≤ 59)
    (hs : now.second ≤ 59) :
    ∃ pre, (get_file_properties file file_type none now).name =
        pre ++ strftimeTimestamp now ∧
      matchesTimestampPattern (strftimeTimestamp now) = true := by
  rcases hk with h | h <;> subst h
  · exact ⟨"Image: ", rfl, strftime_matches_pattern now⟩
  · exact ⟨"Document: ", rfl, strftime_matches_pattern now⟩

/-- Witness for C5 at a concrete kind, URL and clock. -/
theorem file_record_timestamp_fallback_witness :
    (("Image" : String) = "Image" ∨ ("Image" : String) = "Document") ∧
    1000 ≤ (⟨2024, 5, 1, 12, 30, 45⟩ : DateTime).year ∧
    (⟨2024, 5, 1, 12, 30, 45⟩ : DateTime).year ≤ 9999 ∧
    (⟨2024, 5, 1, 12, 30, 45⟩ : DateTime).month ≤ 12 ∧
    (⟨2024, 5, 1, 12, 30, 45⟩ : DateTime).day ≤ 31 ∧
    (⟨2024, 5, 1, 12, 30, 45⟩ : DateTime).hour ≤ 23 ∧
    (⟨2024, 5, 1, 12, 30, 45⟩ : DateTime).minute ≤ 59 ∧
    (⟨2024, 5, 1, 12, 30, 45⟩ : DateTime).second ≤ 59 ∧
    ∃ pre, (get_file_properties ⟨"https://u"⟩ "Image" none
        ⟨2024, 5, 1, 12, 30, 45⟩).name =
        pre ++ strftimeTimestamp ⟨2024, 5, 1, 12, 30, 45⟩ ∧
      matchesTimestampPattern (strftimeTimestamp ⟨2024, 5, 1, 12, 30, 45⟩) = true :=
  ⟨Or.inl rfl, by decide, by decide, by decide, by decide, by decide, by decide,
    by decide,
    file_record_timestamp_fallback ⟨"https://u"⟩ "Image" ⟨2024, 5, 1, 12, 30, 45⟩
      (Or.inl rfl) (by decide) (by decide) (by decide) (by decide) (by decide)
      (by decide) (by decide)⟩

/-- Claim C9: an empty-string filename is falsy in the Python `or`, so
it yields exactly the payload of an omitted filename (the timestamp
fallback), and for the kinds in use no title is ever the bare
`"{Capitalized kind}: "` with nothing after the separator. -/
theorem empty_filename_timestamp_fallback (file : TelegramFile)
    (file_type : String) (now : DateTime)
    (hk : file_type = "Image" ∨ file_type = "Document") :
    get_file_properties file file_type (some "") now =
      get_file_properties file file_type none now ∧
    ∀ filename : Option String,
      (get_file_properties file file_type filename now).name ≠
        pyCapitalize file_type ++ ": " := by
  refine ⟨rfl, ?_⟩
  intro filename heq
  have hdata := congrArg String.data heq
  have hlen := congrArg List.length hdata
  have hpos : 0 < (pyOrElse filename (strftimeTimestamp now)).data.length :=
    List.length_pos.mpr (pyOrElse_timestamp_ne_empty filename now)
  rcases hk with h | h <;> subst h
  · have hL : (get_file_properties file "Image" filename now).name.data.length =
        min 100 (7 + (pyOrElse filename (strftimeTimestamp now)).data.length) := by
      show (List.take 100 (("Image: " : String).data ++
        (pyOrElse filename (strftimeTimestamp now)).data)).length = _
      rw [List.length_take, List.length_append]
      norm_num
    have hR : (pyCapitalize "Image" ++ ": " : String).data.length = 7 := rfl
    rw [hL, hR] at hlen
    omega
  · have hL : (get_file_properties file "Document" filename now).name.data.length =
        min 100 (10 + (pyOrElse filename (strftimeTimestamp now)).data.length) := by
      show (List.take 100 (("Document: " : String).data ++
        (pyOrElse filename (strftimeTimestamp now)).data)).length = _
      rw [List.length_take, List.length_append]
      norm_num
    have hR : (pyCapitalize "Document" ++ ": " : String).data.length = 10 := rfl
    rw [hL, hR] at hlen
    omega

/-- Witness for C9 at a concrete kind, URL and clock. -/
theorem empty_filename_timestamp_fallback_witness :
    (("Document" : String) = "Image" ∨ ("Document" : String) = "Document") ∧
    (get_file_properties ⟨"https://u"⟩ "Document" (some "") ⟨2024, 5, 1, 0, 0, 0⟩ =
      get_file_properties ⟨"https://u"⟩ "Document" none ⟨2024, 5, 1, 0, 0, 0⟩ ∧
    ∀ filename : Option String,
      (get_file_properties ⟨"https://u"⟩ "Document" filename
          ⟨2024, 5, 1, 0, 0, 0⟩).name ≠
        pyCapitalize "Document" ++ ": ") :=
  ⟨Or.inr rfl,
    empty_filename_timestamp_fallback ⟨"https://u"⟩ "Document"
      ⟨2024, 5, 1, 0, 0, 0⟩ (Or.inr rfl)⟩

/-- Claim C6: each message handler sends exactly one acknowledgment
reply followed by exactly one outcome reply — the specific success text
when `save_to_notion` returns `true`, the generic failure string when
it returns `false` — and issues exactly one (hence at most one) Notion
create call per event. -/
theorem handlers_reply_discipline (text : String) (doc : TgDocument)
    (photos : List PhotoSize) (resolve : String → TelegramFile)
    (r : CreateResult) (now : DateTime) (hne : photos ≠ []) :
    replyShape (handle_text text r) "Traitement du texte..."
      "Texte sauvegardé dans Notion !" (save_to_notion r) ∧
    replyShape (handle_document doc resolve r now) "Traitement du document..."
      ("Document '" ++ pyFormat doc.file_name ++ "' sauvegardé dans Notion !")
      (save_to_notion r) ∧
    ∃ t, handle_photo photos resolve r now = some t ∧
      replyShape t "Traitement de l'image..." "Image sauvegardée dans Notion !"
        (save_to_notion r) := by
  refine ⟨?_, ?_, ?_⟩
  · cases r <;> exact ⟨rfl, rfl, rfl, rfl⟩
  · cases r <;> exact ⟨rfl, rfl, rfl, rfl⟩
  · obtain ⟨p, hlast⟩ := Option.isSome_iff_exists.mp (List.getLast?_isSome.mpr hne)
    cases r with
    | success =>
      refine ⟨[.reply "Traitement de l'image...",
        .notionCreate (get_file_properties (resolve p.file_id) "Image" none now),
        .reply "Image sauvegardée dans Notion !"], ?_, ⟨rfl, rfl, rfl, rfl⟩⟩
      simp [handle_photo, pyLastIndex, hlast, save_to_notion]
    | apiResponseError code body =>
      refine ⟨[.reply "Traitement de l'image...",
        .notionCreate (get_file_properties (resolve p.file_id) "Image" none now),
        .reply genericFailureText], ?_, ⟨rfl, rfl, rfl, rfl⟩⟩
      simp [handle_photo, pyLastIndex, hlast, save_to_notion, genericFailureText]
    | otherException msg =>
      refine ⟨[.reply "Traitement de l'image...",
        .notionCreate (get_file_properties (resolve p.file_id) "Image" none now),
        .reply genericFailureText], ?_, ⟨rfl, rfl, rfl, rfl⟩⟩
      simp [handle_photo, pyLastIndex, hlast, save_to_notion, genericFailureText]

/-- Witness for C6 at a concrete event of each kind. -/
theorem handlers_reply_discipline_witness :
    ([(⟨"pid", 1, 1⟩ : PhotoSize)] ≠ []) ∧
    (replyShape (handle_text "Hello world" CreateResult.success)
      "Traitement du texte..." "Texte sauvegardé dans Notion !"
      (save_to_notion CreateResult.success) ∧
    replyShape (handle_document ⟨"did", some "report.pdf"⟩
        (fun _ => ⟨"https://u"⟩) CreateResult.success ⟨2024, 5, 1, 12, 0, 0⟩)
      "Traitement du document..."
      ("Document '" ++ pyFormat (some "report.pdf") ++ "' sauvegardé dans Notion !")
      (save_to_notion CreateResult.success) ∧
    ∃ t, handle_photo [⟨"pid", 1, 1⟩] (fun _ => ⟨"https://u"⟩)
        CreateResult.success ⟨2024, 5, 1, 12, 0, 0⟩ = some t ∧
      replyShape t "Traitement de l'image..." "Image sauvegardée dans Notion !"
        (save_to_notion CreateResult.success)) :=
  ⟨by simp,
    handlers_reply_discipline "Hello world" ⟨"did", some "report.pdf"⟩
      [⟨"pid", 1, 1⟩] (fun _ => ⟨"https://u"⟩) CreateResult.success
      ⟨2024, 5, 1, 12, 0, 0⟩ (by simp)⟩

/-- Claim C8: on a photo event with a non-empty variant list that is
ordered by nondecreasing resolution, the handler selects the last
variant — which then has maximal resolution — and forwards the record
built from that variant's resolved download URL. -/
theorem handle_photo_selects_highest (photos : List PhotoSize)
    (resolve : String → TelegramFile) (r : CreateResult) (now : DateTime)
    (hne : photos ≠ [])
    (hsorted : photos.Pairwise (fun a b => resolution a ≤ resolution b)) :
    ∃ p, pyLastIndex photos = some p ∧
      (∀ q ∈ photos, resolution q ≤ resolution p) ∧
      ∃ t, handle_photo photos resolve r now = some t ∧
        BotAction.notionCreate
          (get_file_properties (resolve p.file_id) "Image" none now) ∈ t := by
  obtain ⟨p, hlast⟩ := Option.isSome_iff_exists.mp (List.getLast?_isSome.mpr hne)
  refine ⟨p, hlast, getLast?_max_of_sorted photos hsorted p hlast, ?_⟩
  cases r with
  | success =>
    refine ⟨[.reply "Traitement de l'image...",
      .notionCreate (get_file_properties (resolve p.file_id) "Image" none now),
      .reply "Image sauvegardée dans Notion !"], ?_, by simp⟩
    simp [handle_photo, pyLastIndex, hlast, save_to_notion]
  | apiResponseError code body =>
    refine ⟨[.reply "Traitement de l'image...",
      .notionCreate (get_file_properties (resolve p.file_id) "Image" none now),
      .reply genericFailureText], ?_, by simp⟩
    simp [handle_photo, pyLastIndex, hlast, save_to_notion, genericFailureText]
  | otherException msg =>
    refine ⟨[.reply "Traitement de l'image...",
      .notionCreate (get_file_properties (resolve p.file_id) "Image" none now),
      .reply genericFailureText], ?_, by simp⟩
    simp [handle_photo, pyLastIndex, hlast, save_to_notion, genericFailureText]

/-- Witness for C8 at a concrete two-variant photo event. -/
theorem handle_photo_selects_highest_witness :
    ([(⟨"a", 1, 1⟩ : PhotoSize), ⟨"b", 2, 2⟩] ≠ []) ∧
    ([(⟨"a", 1, 1⟩ : PhotoSize), ⟨"b", 2, 2⟩].Pairwise
      (fun a b => resolution a ≤ resolution b)) ∧
    ∃ p, pyLastIndex [(⟨"a", 1, 1⟩ : PhotoSize), ⟨"b", 2, 2⟩] = some p ∧
      (∀ q ∈ [(⟨"a", 1, 1⟩ : PhotoSize), ⟨"b", 2, 2⟩],
        resolution q ≤ resolution p) ∧
      ∃ t, handle_photo [⟨"a", 1, 1⟩, ⟨"b", 2, 2⟩] (fun _ => ⟨"https://u"⟩)
          CreateResult.success ⟨2024, 5, 1, 12, 0, 0⟩ = some t ∧
        BotAction.notionCreate (get_file_properties ⟨"https://u"⟩ "Image" none
          ⟨2024, 5, 1, 12, 0, 0⟩) ∈ t :=
  ⟨by simp, by decide,
    handle_photo_selects_highest [⟨"a", 1, 1⟩, ⟨"b", 2, 2⟩]
      (fun _ => ⟨"https://u"⟩) CreateResult.success ⟨2024, 5, 1, 12, 0, 0⟩
      (by simp) (by decide)⟩
